import Mathlib

/-!
Verification of the Komodo-flavoured Zebra transaction-verification pipeline
and peer-handshake negotiation, as a shallow embedding of the Rust sources
(zebra-consensus/src/transaction.rs, zebra-consensus/src/transaction/check.rs,
zebra-chain/src/parameters/tests.rs, zebra-network/src/peer/handshake.rs).

Machine integers are modelled as Nat (heights, sequence numbers) and Int
(timestamps and amounts); fallible code returns Except.  Functions of the
repository that live outside the provided sources (zebra-chain transaction
accessors, the Komodo hardfork table, the fee-rate helpers) are either
modelled from the specification (marked in their doc comments) or taken as
explicit parameters.
-/

namespace Zebra

/-- Transaction lock time, as in zebra-chain: either a block height
(raw value below 500000000) or a unix time (seconds). -/
inductive LockTime where
  | height : Nat → LockTime
  | time : Int → LockTime
deriving DecidableEq, Repr

/-- Transparent out point, a pair of a transaction id and an output index. -/
structure OutPoint where
  txid : Nat
  index : Nat
deriving DecidableEq, Repr

/-- Transparent input: either a coinbase input or a previous-output spend.
Both variants carry a sequence number, as in zebra-chain transparent::Input. -/
inductive Input where
  | coinbase (sequence : Nat)
  | prevOut (outpoint : OutPoint) (sequence : Nat)
deriving DecidableEq, Repr

/-- Sequence number of a transparent input (transparent::Input::sequence). -/
def Input.sequence : Input → Nat
  | .coinbase s => s
  | .prevOut _ s => s

/-- Out point of an input, when the input is a previous-output spend. -/
def Input.outPoint : Input → Option OutPoint
  | .coinbase _ => none
  | .prevOut op _ => some op

/-- Transparent output; only the value matters for the embedded checks. -/
structure Output where
  value : Int
deriving DecidableEq, Repr

/-- Unspent transparent output, as owned by the state service. -/
structure Utxo where
  output : Output
  height : Nat
  fromCoinbase : Bool
deriving DecidableEq, Repr

/-- Transaction-verification errors, with the payloads the embedded checks
track (transaction hashes are omitted). One variant per outcome, following
crate::error::TransactionError. -/
inductive TransactionError where
  | NoInputs
  | NoOutputs
  | CoinbaseInMempool
  | NonCoinbaseHasCoinbaseInput
  | CoinbaseHasJoinSplit
  | CoinbaseHasSpend
  | CoinbaseHasEnableSpendsOrchard
  | BothVPubsNonZero
  | DisabledAddToSproutPool
  | DuplicateTransparentSpend (outpoint : OutPoint)
  | DuplicateSproutNullifier (nullifier : Nat)
  | DuplicateSaplingNullifier (nullifier : Nat)
  | DuplicateOrchardNullifier (nullifier : Nat)
  | LockedUntilAfterBlockHeight (unlockHeight : Nat)
  | LockedUntilAfterBlockTime (unlockTime : Int)
  | WrongVersion
  | NotEnoughFlags
  | CoinbaseExpiryBlockHeight (expiryHeight : Option Nat) (blockHeight : Nat)
  | MaximumExpiryHeight (expiryHeight : Nat) (isCoinbase : Bool)
  | ExpiredTransaction (expiryHeight : Nat) (blockHeight : Nat)
  | TransparentInputNotFound
  | IncorrectFee
  | KomodoLowFeeLimit (msg : String)
  | KomodoAbsurdFee (fee : Int)
  | KomodoTxLockTimeTooEarly (lockTime : Int) (txHeight : Nat)
  | KomodoTipTimeError
  | KomodoMedianTimePastError
  | KomodoBannedInput
deriving DecidableEq, Repr

/-- Largest u32 value, the sequence number marking a final input. -/
def seqFinal : Nat := 4294967295

/-- The sequence number 0xFFFFFFFE covered by the Komodo exception. -/
def seqKomodoException : Nat := 4294967294

/-- LockTime::unlocked(), a raw lock time of zero. -/
def LockTime.unlocked : LockTime := LockTime.height 0

/-- Komodo-style lock-time pass condition, the early-return match of
check::is_final_tx_komodo: the lock time is strictly below the like-kind
block value. -/
def lock_time_passed (lockTime : LockTime) (blockHeight : Nat) (blockTime : Int) : Bool :=
  match lockTime with
  | LockTime.height unlockHeight => unlockHeight < blockHeight
  | LockTime.time unlockTime => unlockTime < blockTime

/-- Komodo f_exception condition of check::is_final_tx_komodo: true when
nLockTime is strictly above the like-kind block value. -/
def komodo_f_exception (lockTime : LockTime) (blockHeight : Nat) (blockTime : Int) : Bool :=
  match lockTime with
  | LockTime.height unlockHeight => blockHeight < unlockHeight
  | LockTime.time unlockTime => blockTime < unlockTime

/-- Per-input closure of check::is_final_tx_komodo: true when the input is
non-final (its sequence is not 0xFFFFFFFF and it does not satisfy the Komodo
0xFFFFFFFE exception for the given hardfork state). -/
def komodo_input_non_final (hfActive fException : Bool) (sequenceNumber : Nat) : Bool :=
  if !hfActive && sequenceNumber == seqKomodoException && fException then
    false
  else if hfActive && sequenceNumber == seqKomodoException && !fException then
    false
  else
    sequenceNumber != seqFinal

/-- Shallow embedding of check::is_final_tx_komodo from
zebra-consensus/src/transaction/check.rs.  The December-hardfork activation
predicate NN::komodo_s1_december_hardfork_active lives in zebra-chain and is
taken as the parameter decemberHfActive (a function of the height it is
evaluated at); the transaction is represented by its raw lock time and the
sequence numbers of its inputs. -/
def is_final_tx_komodo (decemberHfActive : Nat → Bool)
    (rawLockTime : Option LockTime) (sequences : List Nat)
    (blockHeight : Nat) (blockTime : Int) :
    Except TransactionError Unit :=
  match rawLockTime with
  | none => Except.ok ()
  | some lockTime =>
    if lockTime = LockTime.unlocked then Except.ok ()
    else if lock_time_passed lockTime blockHeight blockTime then Except.ok ()
    else
      -- validation_height = block_height - 1; Height subtraction yields
      -- None at height 0 and the hardfork is then treated as inactive.
      let hfActive := if blockHeight = 0 then false
        else decemberHfActive (blockHeight - 1)
      let txIsNonFinal := sequences.any
        (komodo_input_non_final hfActive
          (komodo_f_exception lockTime blockHeight blockTime))
      if txIsNonFinal then
        match lockTime with
        | LockTime.height unlockHeight =>
          Except.error (TransactionError.LockedUntilAfterBlockHeight unlockHeight)
        | LockTime.time unlockTime =>
          Except.error (TransactionError.LockedUntilAfterBlockTime unlockTime)
      else Except.ok ()

/-- Claim-side reading of the like-kind lock-time comparison: the lock time
is strictly below the matching block value. -/
def lockBeforeBlock (lockTime : LockTime) (blockHeight : Nat) (blockTime : Int) : Prop :=
  match lockTime with
  | LockTime.height unlockHeight => unlockHeight < blockHeight
  | LockTime.time unlockTime => unlockTime < blockTime

instance (lt : LockTime) (bh : Nat) (bt : Int) : Decidable (lockBeforeBlock lt bh bt) := by
  unfold lockBeforeBlock
  cases lt <;> infer_instance

/-- Claim-side reading of input finality under the Komodo rule: an input is
final when its sequence is 0xFFFFFFFF, or when its sequence is 0xFFFFFFFE and
the December hardfork (evaluated at the previous height) is inactive with the
lock time above the like-kind block value, or active with the lock time at or
below the like-kind block value. -/
def spec_input_final (hfActivePrev : Bool) (lockTime : LockTime)
    (blockHeight : Nat) (blockTime : Int) (sequence : Nat) : Prop :=
  sequence = seqFinal ∨
    (sequence = seqKomodoException ∧
      ((¬ hfActivePrev ∧
          match lockTime with
          | LockTime.height unlockHeight => blockHeight < unlockHeight
          | LockTime.time unlockTime => blockTime < unlockTime) ∨
        (hfActivePrev ∧
          match lockTime with
          | LockTime.height unlockHeight => unlockHeight ≤ blockHeight
          | LockTime.time unlockTime => unlockTime ≤ blockTime)))

instance (hf : Bool) (lt : LockTime) (bh : Nat) (bt : Int) (s : Nat) :
    Decidable (spec_input_final hf lt bh bt s) := by
  unfold spec_input_final
  cases lt <;> infer_instance

/-- Claim-side finality of a whole transaction with a raw lock time. -/
def spec_tx_final (hfActivePrev : Bool) (lockTime : LockTime)
    (sequences : List Nat) (blockHeight : Nat) (blockTime : Int) : Prop :=
  lockTime = LockTime.height 0 ∨
    lockBeforeBlock lockTime blockHeight blockTime ∨
    ∀ s ∈ sequences, spec_input_final hfActivePrev lockTime blockHeight blockTime s

/-- Claim-side error shape of a non-final transaction: the height error for
a height lock and the time error for a time lock. -/
def spec_locked_error : LockTime → Except TransactionError Unit
  | LockTime.height unlockHeight =>
    Except.error (TransactionError.LockedUntilAfterBlockHeight unlockHeight)
  | LockTime.time unlockTime =>
    Except.error (TransactionError.LockedUntilAfterBlockTime unlockTime)

/-- Shallow embedding of komodo_validate_interest_locktime from
zebra-consensus/src/transaction.rs.  The activation predicates
NN::komodo_interest_validate_locktime_active and
NN::komodo_interest_adjust_max_mempool_time_active and the constant
KOMODO_MAXMEMPOOLTIME live in zebra-chain and are taken as parameters; the
transaction is represented by its raw lock time. -/
def komodo_validate_interest_locktime
    (validateLocktimeActive adjustMaxMempoolTimeActive : Nat → Bool)
    (maxMempoolTime : Int)
    (rawLockTime : Option LockTime) (txHeight : Nat) (cmpTime : Int) :
    Except TransactionError Unit :=
  match rawLockTime with
  | some (LockTime.time lockTime) =>
    if validateLocktimeActive txHeight then
      let cmpTimeAdj := if adjustMaxMempoolTimeActive txHeight then
          cmpTime - 16000
        else cmpTime
      if lockTime < cmpTimeAdj - maxMempoolTime then
        Except.error (TransactionError.KomodoTxLockTimeTooEarly lockTime txHeight)
      else Except.ok ()
    else Except.ok ()
  | _ => Except.ok ()

/-- Height::MAX_EXPIRY_HEIGHT from zebra-chain, the largest valid expiry
height (equal to Height::MAX, 499999999). -/
def MAX_EXPIRY_HEIGHT : Nat := 499999999

/-- Shallow embedding of check::validate_expiry_height_max; only the expiry
height decides the outcome, the other source parameters feed the error
payload. -/
def validate_expiry_height_max (expiryHeight : Option Nat) (isCoinbase : Bool) :
    Except TransactionError Unit :=
  match expiryHeight with
  | some e =>
    if e > MAX_EXPIRY_HEIGHT then
      Except.error (TransactionError.MaximumExpiryHeight e isCoinbase)
    else Except.ok ()
  | none => Except.ok ()

/-- Shallow embedding of check::validate_expiry_height_mined. -/
def validate_expiry_height_mined (expiryHeight : Option Nat) (blockHeight : Nat) :
    Except TransactionError Unit :=
  match expiryHeight with
  | some e =>
    if blockHeight > e then
      Except.error (TransactionError.ExpiredTransaction e blockHeight)
    else Except.ok ()
  | none => Except.ok ()

/-- Shallow embedding of check::non_coinbase_expiry_height; the transaction
is represented by its is_overwintered flag and its expiry_height accessor
value (which is none when the raw expiry field is zero). -/
def non_coinbase_expiry_height (blockHeight : Nat) (isOverwintered : Bool)
    (expiryHeight : Option Nat) : Except TransactionError Unit :=
  if isOverwintered then do
    validate_expiry_height_max expiryHeight false
    validate_expiry_height_mined expiryHeight blockHeight
  else Except.ok ()

/-- Shallow embedding of check::coinbase_expiry_height; the NU5 activation
height (from the zebra-chain parameters table) is a parameter. -/
def coinbase_expiry_height (nu5ActivationHeight : Option Nat) (blockHeight : Nat)
    (expiryHeight : Option Nat) : Except TransactionError Unit :=
  match nu5ActivationHeight with
  | some nu5 =>
    if blockHeight ≥ nu5 then
      if expiryHeight ≠ some blockHeight then
        Except.error
          (TransactionError.CoinbaseExpiryBlockHeight expiryHeight blockHeight)
      else Except.ok ()
    else validate_expiry_height_max expiryHeight true
  | none => validate_expiry_height_max expiryHeight true

/-- Orchard shielded bundle: action count, the two enable flags, and the
action nullifiers. -/
structure OrchardShieldedData where
  actionsCount : Nat
  enableSpends : Bool
  enableOutputs : Bool
  nullifiers : List Nat
deriving DecidableEq, Repr

/-- Transaction model: the attributes the embedded checks read.  joinSplits
holds the (vpub_old, vpub_new) pair of each JoinSplit;
expiryHeightField is the raw nExpiryHeight field (only meaningful from V3
on). -/
structure Transaction where
  version : Nat
  inputs : List Input
  outputs : List Output
  rawLockTime : Option LockTime
  expiryHeightField : Nat
  joinSplits : List (Int × Int)
  sproutNullifiers : List Nat
  saplingSpends : Nat
  saplingOutputs : Nat
  saplingNullifiers : List Nat
  orchard : Option OrchardShieldedData
deriving DecidableEq, Repr

/-- Modelled from the spec: a transaction is coinbase exactly when its only
input is a single Coinbase input (data-model invariant of §3). -/
def Transaction.is_coinbase (tx : Transaction) : Bool :=
  match tx.inputs with
  | [Input.coinbase _] => true
  | _ => false

/-- Modelled from the spec: a valid non-coinbase transaction has only
PrevOut inputs (no mixing of coinbase and PrevOut inputs, §3). -/
def Transaction.is_valid_non_coinbase (tx : Transaction) : Bool :=
  tx.inputs.all fun input =>
    match input with
    | Input.prevOut _ _ => true
    | Input.coinbase _ => false

/-- Modelled from the spec: the expiry_height accessor of zebra-chain; V1
and V2 have no expiry field and a zero field means "no limit", hence none. -/
def Transaction.expiry_height (tx : Transaction) : Option Nat :=
  if tx.version ≤ 2 then none
  else if tx.expiryHeightField = 0 then none
  else some tx.expiryHeightField

/-- Modelled from the spec: V3, V4 and V5 transactions are overwintered. -/
def Transaction.is_overwintered (tx : Transaction) : Bool :=
  3 ≤ tx.version

/-- Orchard action count (0 when no Orchard bundle is present). -/
def Transaction.orchardActionsCount (tx : Transaction) : Nat :=
  (tx.orchard.map OrchardShieldedData.actionsCount).getD 0

/-- Orchard enableSpends flag (false when no Orchard bundle is present). -/
def Transaction.orchardEnableSpends (tx : Transaction) : Bool :=
  (tx.orchard.map OrchardShieldedData.enableSpends).getD false

/-- Orchard enableOutputs flag (false when no Orchard bundle is present). -/
def Transaction.orchardEnableOutputs (tx : Transaction) : Bool :=
  (tx.orchard.map OrchardShieldedData.enableOutputs).getD false

/-- Orchard nullifiers (empty when no Orchard bundle is present). -/
def Transaction.orchardNullifiers (tx : Transaction) : List Nat :=
  (tx.orchard.map OrchardShieldedData.nullifiers).getD []

/-- Out points spent by the transparent PrevOut inputs, in input order. -/
def Transaction.spent_outpoints (tx : Transaction) : List OutPoint :=
  tx.inputs.filterMap Input.outPoint

/-- Modelled from the spec: a transparent or shielded source is present
(a transparent input, a JoinSplit, a Sapling spend, or an Orchard action
with enableSpends set). -/
def Transaction.has_transparent_or_shielded_inputs (tx : Transaction) : Bool :=
  !tx.inputs.isEmpty || tx.joinSplits.length > 0 || tx.saplingSpends > 0 ||
    (tx.orchardActionsCount > 0 && tx.orchardEnableSpends)

/-- Modelled from the spec: a transparent or shielded sink is present
(a transparent output, a JoinSplit, a Sapling output, or an Orchard action
with enableOutputs set). -/
def Transaction.has_transparent_or_shielded_outputs (tx : Transaction) : Bool :=
  !tx.outputs.isEmpty || tx.joinSplits.length > 0 || tx.saplingOutputs > 0 ||
    (tx.orchardActionsCount > 0 && tx.orchardEnableOutputs)

/-- Modelled from the spec: if Orchard actions are present, at least one of
enableSpends and enableOutputs must be set (§4.1). -/
def Transaction.has_enough_orchard_flags (tx : Transaction) : Bool :=
  if tx.version < 5 || tx.orchardActionsCount == 0 then true
  else tx.orchardEnableSpends || tx.orchardEnableOutputs

/-- Shallow embedding of check::has_inputs_and_outputs. -/
def has_inputs_and_outputs (tx : Transaction) : Except TransactionError Unit :=
  if !tx.has_transparent_or_shielded_inputs then
    Except.error TransactionError.NoInputs
  else if !tx.has_transparent_or_shielded_outputs then
    Except.error TransactionError.NoOutputs
  else Except.ok ()

/-- Shallow embedding of check::has_enough_orchard_flags. -/
def has_enough_orchard_flags_check (tx : Transaction) : Except TransactionError Unit :=
  if !tx.has_enough_orchard_flags then
    Except.error TransactionError.NotEnoughFlags
  else Except.ok ()

/-- Shallow embedding of check::coinbase_tx_no_prevout_joinsplit_spend. -/
def coinbase_tx_no_prevout_joinsplit_spend (tx : Transaction) :
    Except TransactionError Unit :=
  if tx.is_coinbase then
    if tx.joinSplits.length > 0 then
      Except.error TransactionError.CoinbaseHasJoinSplit
    else if tx.saplingSpends > 0 then
      Except.error TransactionError.CoinbaseHasSpend
    else if tx.orchardEnableSpends then
      Except.error TransactionError.CoinbaseHasEnableSpendsOrchard
    else Except.ok ()
  else Except.ok ()

/-- Shallow embedding of check::joinsplit_has_vpub_zero: every JoinSplit
must have vpub_old = 0 or vpub_new = 0. -/
def joinsplit_has_vpub_zero (tx : Transaction) : Except TransactionError Unit :=
  if tx.joinSplits.any (fun p => p.1 != 0 && p.2 != 0) then
    Except.error TransactionError.BothVPubsNonZero
  else Except.ok ()

/-- Shallow embedding of check::disabled_add_to_sprout_pool; the Canopy
activation height (from the zebra-chain parameters table) is a parameter. -/
def disabled_add_to_sprout_pool (tx : Transaction) (height : Nat)
    (canopyActivationHeight : Nat) : Except TransactionError Unit :=
  if height ≥ canopyActivationHeight then
    if tx.joinSplits.any (fun p => p.1 != 0) then
      Except.error TransactionError.DisabledAddToSproutPool
    else Except.ok ()
  else Except.ok ()

/-- First duplicate in a list, scanning left to right against the already
seen items (the HashSet of check::check_for_duplicates). -/
def find_duplicate {α : Type} [DecidableEq α] (seen : List α) :
    List α → Option α
  | [] => none
  | x :: xs => if x ∈ seen then some x else find_duplicate (x :: seen) xs

/-- Shallow embedding of check::spend_conflicts: transparent out points and
per-pool nullifiers must each be unique within the transaction. -/
def spend_conflicts (tx : Transaction) : Except TransactionError Unit := do
  match find_duplicate [] tx.spent_outpoints with
  | some op => throw (TransactionError.DuplicateTransparentSpend op)
  | none => pure ()
  match find_duplicate [] tx.sproutNullifiers with
  | some n => throw (TransactionError.DuplicateSproutNullifier n)
  | none => pure ()
  match find_duplicate [] tx.saplingNullifiers with
  | some n => throw (TransactionError.DuplicateSaplingNullifier n)
  | none => pure ()
  match find_duplicate [] tx.orchardNullifiers with
  | some n => throw (TransactionError.DuplicateOrchardNullifier n)
  | none => pure ()

/-- Modelled from the spec: FeeRate::get_fee computes the fee floor
min_relay_fee × size (komodo_fee_check.rs is not among the provided
sources; §4.3 step 16 of the spec states the floor as
min_relay_fee × size). -/
def get_fee (minRelayFee : Int) (txSize : Nat) : Int :=
  minRelayFee * txSize

/-- Shallow embedding of Verifier::komodo_miner_fee_valid_for_mempool from
zebra-consensus/src/transaction.rs.  The rate limiter (komodo_fee_check.rs,
not among the provided sources) is represented by the boolean verdict
rateLimitOk of its check_rate_limit call; outputValuesSum is the checked
NonNegative sum of the output values, none when that sum overflows. -/
def komodo_miner_fee_valid_for_mempool (rateLimitOk : Bool) (minRelayFee : Int)
    (txSize : Nat) (outputValuesSum : Option Int) (txFee : Int)
    (checkLowFee rejectAbsurdFee : Bool) : Except TransactionError Unit :=
  if checkLowFee && decide (txFee < get_fee minRelayFee txSize) && !rateLimitOk then
    Except.error (TransactionError.KomodoLowFeeLimit "low txfee limit reached")
  else if rejectAbsurdFee &&
      decide (txFee > get_fee minRelayFee txSize * 10000) &&
      decide (txFee > outputValuesSum.getD 0 / 19) then
    Except.error (TransactionError.KomodoAbsurdFee txFee)
  else Except.ok ()

/-- State-service answers consumed by one verification, one field per
request kind of §6 (the service itself is an external collaborator). -/
structure StateOracle where
  medianTimePast : Option Nat → Option Int
  awaitBlockTime : Nat → Option Int
  blockTimeAtHeight : Nat → Option Int
  unspentBestChainUtxo : OutPoint → Option Utxo
  awaitUtxo : OutPoint → Utxo

/-- Network-dependent parameters of the verifier that live in zebra-chain
(hardfork table and activation heights), taken as explicit data. -/
structure NetParams where
  decemberHfActive : Nat → Bool
  interestValidateActive : Nat → Bool
  adjustMaxMempoolActive : Nat → Bool
  gapAfterSecondBlockAllowed : Nat → Bool
  canopyActivationHeight : Nat
  nu5ActivationHeight : Option Nat
  maxMempoolTime : Int

/-- Verification request: block context (with the extra UTXOs known from
the same block, height, block time, previous hash and the last-transaction
marker) or mempool context (height plus the two fee-check switches). -/
inductive VRequest where
  | block (knownUtxos : OutPoint → Option Utxo) (height : Nat) (time : Int)
      (previousHash : Nat) (hasLastTxData : Bool)
  | mempool (height : Nat) (checkLowFee rejectAbsurdFee : Bool)

/-- Height of the request (Request::height). -/
def VRequest.height : VRequest → Nat
  | .block _ h _ _ _ => h
  | .mempool h _ _ => h

/-- Whether the request is a mempool request (Request::is_mempool). -/
def VRequest.is_mempool : VRequest → Bool
  | .block _ _ _ _ _ => false
  | .mempool _ _ _ => true

/-- Block time of the request, none for mempool (Request::block_time). -/
def VRequest.block_time : VRequest → Option Int
  | .block _ _ t _ _ => some t
  | .mempool _ _ _ => none

/-- Known UTXOs of the request, empty for mempool (Request::known_utxos). -/
def VRequest.known_utxos : VRequest → (OutPoint → Option Utxo)
  | .block k _ _ _ _ => k
  | .mempool _ _ _ => fun _ => none

/-- Whether last-transaction verification data is attached
(Request::get_last_tx_verify_data is some). -/
def VRequest.has_last_tx_data : VRequest → Bool
  | .block _ _ _ _ l => l
  | .mempool _ _ _ => false

/-- Shallow embedding of Verifier::get_last_block_time: for block context
await the previous block by hash, for mempool context fetch the block at
height − 1; a missing block yields KomodoTipTimeError. -/
def get_last_block_time (S : StateOracle) (req : VRequest) :
    Except TransactionError Int :=
  match req with
  | VRequest.block _ _ _ previousHash _ =>
    match S.awaitBlockTime previousHash with
    | some t => Except.ok t
    | none => Except.error TransactionError.KomodoTipTimeError
  | VRequest.mempool height _ _ =>
    match S.blockTimeAtHeight (height - 1) with
    | some t => Except.ok t
    | none => Except.error TransactionError.KomodoTipTimeError

/-- Shallow embedding of Verifier::get_median_time_past; a missing median
time past yields KomodoMedianTimePastError. -/
def get_median_time_past (S : StateOracle) (blockHash : Option Nat) :
    Except TransactionError Int :=
  match S.medianTimePast blockHash with
  | some t => Except.ok t
  | none => Except.error TransactionError.KomodoMedianTimePastError

/-- Shallow embedding of Verifier::spent_utxos: walk the inputs in order,
take each PrevOut UTXO from known_utxos when present, otherwise query
UnspentBestChainUtxo in mempool context (none fails with
TransparentInputNotFound) or AwaitUtxo in block context; return the
outpoint-to-UTXO map (as an association list) together with the outputs in
input order. -/
def spent_utxos (knownUtxos : OutPoint → Option Utxo) (isMempool : Bool)
    (S : StateOracle) :
    List Input → Except TransactionError (List (OutPoint × Utxo) × List Output)
  | [] => Except.ok ([], [])
  | input :: rest =>
    match input with
    | Input.coinbase _ => spent_utxos knownUtxos isMempool S rest
    | Input.prevOut outpoint _ => do
      let utxo ← match knownUtxos outpoint with
        | some u => Except.ok u
        | none =>
          if isMempool then
            match S.unspentBestChainUtxo outpoint with
            | some u => Except.ok u
            | none => Except.error TransactionError.TransparentInputNotFound
          else Except.ok (S.awaitUtxo outpoint)
      let (m, outs) ← spent_utxos knownUtxos isMempool S rest
      Except.ok ((outpoint, utxo) :: m, utxo.output :: outs)

/-- Claim-side resolver for one out point: known_utxos first, else the
mempool or block state query. -/
def spec_resolve_utxo (knownUtxos : OutPoint → Option Utxo) (isMempool : Bool)
    (S : StateOracle) (outpoint : OutPoint) : Except TransactionError Utxo :=
  match knownUtxos outpoint with
  | some u => Except.ok u
  | none =>
    if isMempool then
      match S.unspentBestChainUtxo outpoint with
      | some u => Except.ok u
      | none => Except.error TransactionError.TransparentInputNotFound
    else Except.ok (S.awaitUtxo outpoint)

/-- Out points of the PrevOut inputs, in input order. -/
def prevOutPoints (inputs : List Input) : List OutPoint :=
  inputs.filterMap Input.outPoint

/-- Claim-side resolution of a list of out points, in order, stopping at
the first failure. -/
def spec_resolve_all (knownUtxos : OutPoint → Option Utxo) (isMempool : Bool)
    (S : StateOracle) : List OutPoint → Except TransactionError (List Utxo)
  | [] => Except.ok []
  | op :: ops => do
    let u ← spec_resolve_utxo knownUtxos isMempool S op
    let us ← spec_resolve_all knownUtxos isMempool S ops
    Except.ok (u :: us)

/-- Claim-side description of UTXO resolution: resolve the out points of
the PrevOut inputs in input order; on success pair them with their UTXOs
and also return the resolved outputs, in the same order as the PrevOut
inputs appear in the transaction. -/
def spec_spent_utxos (knownUtxos : OutPoint → Option Utxo) (isMempool : Bool)
    (S : StateOracle) (inputs : List Input) :
    Except TransactionError (List (OutPoint × Utxo) × List Output) :=
  match spec_resolve_all knownUtxos isMempool S (prevOutPoints inputs) with
  | Except.ok utxos =>
    Except.ok ((prevOutPoints inputs).zip utxos, utxos.map Utxo.output)
  | Except.error e => Except.error e

/-- Shallow embedding of the synchronous stage of Verifier::call from
zebra-consensus/src/transaction.rs, every step before the per-version
dispatch, in source order.  check::tx_has_banned_inputs and
check::komodo_check_deposit_and_opret are not among the provided sources
and are taken as parameters. -/
def verifier_pre_checks (P : NetParams) (S : StateOracle)
    (tx_has_banned_inputs : Transaction → Except TransactionError Unit)
    (komodo_check_deposit_and_opret :
      Transaction → List (OutPoint × Utxo) → Except TransactionError Unit)
    (tx : Transaction) (req : VRequest) : Except TransactionError Unit := do
  match req.block_time with
  | some blockTime =>
    is_final_tx_komodo P.decemberHfActive tx.rawLockTime
      (tx.inputs.map Input.sequence) req.height blockTime
  | none => pure ()
  has_inputs_and_outputs tx
  has_enough_orchard_flags_check tx
  if req.is_mempool && tx.is_coinbase then
    throw TransactionError.CoinbaseInMempool
  if tx.is_coinbase then
    coinbase_tx_no_prevout_joinsplit_spend tx
  else if !tx.is_valid_non_coinbase then
    throw TransactionError.NonCoinbaseHasCoinbaseInput
  if tx.is_coinbase then
    coinbase_expiry_height P.nu5ActivationHeight req.height tx.expiry_height
  else
    non_coinbase_expiry_height req.height tx.is_overwintered tx.expiry_height
  joinsplit_has_vpub_zero tx
  disabled_add_to_sprout_pool tx req.height P.canopyActivationHeight
  spend_conflicts tx
  match req with
  | VRequest.mempool height _ _ => do
    let mtp ← get_median_time_past S none
    let cmpTime := mtp + 777
    komodo_validate_interest_locktime P.interestValidateActive
      P.adjustMaxMempoolActive P.maxMempoolTime tx.rawLockTime height cmpTime
  | VRequest.block _ height time previousHash _ => do
    let cmpTime ← if P.gapAfterSecondBlockAllowed height then do
        let mtp ← get_median_time_past S (some previousHash)
        pure (mtp + 777)
      else pure time
    komodo_validate_interest_locktime P.interestValidateActive
      P.adjustMaxMempoolActive P.maxMempoolTime tx.rawLockTime height cmpTime
  if !tx.is_coinbase then do
    let _ ← get_last_block_time S req
    pure ()
  tx_has_banned_inputs tx
  let (spentUtxos, _spentOutputs) ←
    spent_utxos req.known_utxos req.is_mempool S tx.inputs
  if req.has_last_tx_data then
    komodo_check_deposit_and_opret tx spentUtxos
  pure ()

/-- Shallow embedding of Verifier::call up to and including the per-version
dispatch: the synchronous pre-checks in source order, then the match on the
transaction version that rejects V1, V2 and V3 with WrongVersion.  The V4
and V5 continuation (network-upgrade check, async proof and signature
checks, fee computation) is abstracted by the postDispatch parameter, which
is irrelevant for the V1-V3 claims settled here. -/
def verifier_call (P : NetParams) (S : StateOracle)
    (tx_has_banned_inputs : Transaction → Except TransactionError Unit)
    (komodo_check_deposit_and_opret :
      Transaction → List (OutPoint × Utxo) → Except TransactionError Unit)
    (postDispatch : Except TransactionError Unit)
    (tx : Transaction) (req : VRequest) : Except TransactionError Unit := do
  verifier_pre_checks P S tx_has_banned_inputs komodo_check_deposit_and_opret tx req
  match tx.version with
  | 1 => throw TransactionError.WrongVersion
  | 2 => throw TransactionError.WrongVersion
  | 3 => throw TransactionError.WrongVersion
  | _ => postDispatch

/-- Network upgrades, in order (zebra-chain parameters). -/
inductive NetworkUpgrade where
  | Genesis
  | BeforeOverwinter
  | Overwinter
  | Sapling
  | Blossom
  | Heartwood
  | Canopy
  | Nu5
deriving DecidableEq, Repr

/-- The two networks. -/
inductive Network where
  | Mainnet
  | Testnet
deriving DecidableEq, Repr

/-- Height::MAX from zebra-chain (499999999), used by this Komodo fork as
the activation height of unused upgrades, standing for "no activation". -/
def HEIGHT_MAX : Nat := 499999999

/-- Modelled from the spec: the Komodo activation-height mapping
(zebra-chain/src/parameters/network_upgrade.rs is not among the provided
sources).  Per the spec and parameters/tests.rs (komodo_activation_extremes):
Genesis activates at height 0, BeforeOverwinter at height 1, Overwinter and
Sapling share one activation height strictly above 1 (the saplingHeight
parameter), and the unused upgrades are set at Height::MAX. -/
def activation_height (saplingHeight : Nat) :
    Network → NetworkUpgrade → Option Nat
  | _, NetworkUpgrade.Genesis => some 0
  | _, NetworkUpgrade.BeforeOverwinter => some 1
  | _, NetworkUpgrade.Overwinter => some saplingHeight
  | _, NetworkUpgrade.Sapling => some saplingHeight
  | _, NetworkUpgrade.Blossom => some HEIGHT_MAX
  | _, NetworkUpgrade.Heartwood => some HEIGHT_MAX
  | _, NetworkUpgrade.Canopy => some HEIGHT_MAX
  | _, NetworkUpgrade.Nu5 => some HEIGHT_MAX

/-- Handshake errors (zebra-network HandshakeError, the variants the
negotiation model reaches). -/
inductive HandshakeError where
  | ConnectionClosed
  | UnexpectedMessage
  | NonceReuse
  | ObsoleteVersion (version : Nat)
deriving DecidableEq, Repr

/-- Wire messages of the negotiation model. -/
inductive HMessage where
  | version (protocolVersion : Nat) (nonce : Nat)
  | verack
  | other
deriving DecidableEq, Repr

/-- Critical section of negotiate_version guarding the shared nonce set
(handshake.rs, the locked_nonces block): under one lock acquisition, read
whether the remote nonce is currently in the set, then remove exactly the
local nonce.  Returns the nonce_reuse verdict and the updated set. -/
def nonce_check (nonces : Finset Nat) (localNonce remoteNonce : Nat) :
    Bool × Finset Nat :=
  (decide (remoteNonce ∈ nonces), nonces.erase localNonce)

/-- Trace of one negotiation: the outcome (the remote version on success),
the messages our side sent, and the nonce set after the critical section. -/
structure NegotiationTrace where
  outcome : Except HandshakeError Nat
  sent : List HMessage
  noncesAfter : Finset Nat

/-- Shallow embedding of negotiate_version from
zebra-network/src/peer/handshake.rs, along the path after the remote
Version message has been received (earlier aborts send no Verack either):
insert the fresh local nonce into the shared set, send our Version, run the
nonce critical section, fail NonceReuse on a hit, fail ObsoleteVersion when
the remote version is below the sampled minimum, otherwise send Verack and
wait for the peer's Verack (verackArrives tells whether one arrives before
the connection closes). -/
def negotiate_version (nonces0 : Finset Nat) (localNonce ourVersion : Nat)
    (remoteVersion remoteNonce minVersion : Nat) (verackArrives : Bool) :
    NegotiationTrace :=
  let nonces1 := insert localNonce nonces0
  let sentVersion : List HMessage := [HMessage.version ourVersion localNonce]
  let checked := nonce_check nonces1 localNonce remoteNonce
  if checked.fst then
    { outcome := Except.error HandshakeError.NonceReuse,
      sent := sentVersion, noncesAfter := checked.snd }
  else if remoteVersion < minVersion then
    { outcome := Except.error (HandshakeError.ObsoleteVersion remoteVersion),
      sent := sentVersion, noncesAfter := checked.snd }
  else
    let sent2 := sentVersion ++ [HMessage.verack]
    if verackArrives then
      { outcome := Except.ok remoteVersion, sent := sent2,
        noncesAfter := checked.snd }
    else
      { outcome := Except.error HandshakeError.ConnectionClosed, sent := sent2,
        noncesAfter := checked.snd }

theorem komodo_input_non_final_eq_false (hfb : Bool) (lt : LockTime)
    (bh : Nat) (bt : Int) (s : Nat) :
    komodo_input_non_final hfb (komodo_f_exception lt bh bt) s = false ↔
      spec_input_final hfb lt bh bt s := by
  cases lt with
  | height uh =>
    cases hfb <;> by_cases h1 : s = seqKomodoException <;> by_cases h2 : bh < uh <;>
      simp [komodo_input_non_final, komodo_f_exception, spec_input_final,
        h1, h2, not_lt, seqFinal, seqKomodoException] <;> omega
  | time ut =>
    cases hfb <;> by_cases h1 : s = seqKomodoException <;> by_cases h2 : bt < ut <;>
      simp [komodo_input_non_final, komodo_f_exception, spec_input_final,
        h1, h2, not_lt, seqFinal, seqKomodoException] <;> omega

theorem lock_time_passed_iff (lt : LockTime) (bh : Nat) (bt : Int) :
    lock_time_passed lt bh bt = true ↔ lockBeforeBlock lt bh bt := by
  cases lt <;> simp [lock_time_passed, lockBeforeBlock]

/-- C1: for every transaction with a raw lock time, is_final_tx_komodo
returns Ok exactly when the lock time is zero, or strictly below the
like-kind block value, or every input not covered by the Komodo 0xFFFFFFFE
exception has sequence 0xFFFFFFFF (an input with sequence 0xFFFFFFFE being
final exactly when the December hardfork, evaluated at blockHeight - 1, is
inactive and the lock time exceeds the like-kind block value, or active and
the lock time is at most the like-kind block value); otherwise it returns
LockedUntilAfterBlockHeight for a height lock and LockedUntilAfterBlockTime
for a time lock. -/
theorem is_final_tx_komodo_spec (hf : Nat → Bool) (lt : LockTime)
    (seqs : List Nat) (bh : Nat) (bt : Int) (hbh : 0 < bh) :
    (is_final_tx_komodo hf (some lt) seqs bh bt = Except.ok () ↔
      spec_tx_final (hf (bh - 1)) lt seqs bh bt) ∧
    (¬ spec_tx_final (hf (bh - 1)) lt seqs bh bt →
      is_final_tx_komodo hf (some lt) seqs bh bt = spec_locked_error lt) := by
  have hbh0 : ¬ (bh = 0) := Nat.pos_iff_ne_zero.mp hbh
  by_cases h0 : lt = LockTime.unlocked
  · subst h0
    refine ⟨⟨fun _ => Or.inl rfl, fun _ => by simp [is_final_tx_komodo]⟩, ?_⟩
    intro hnot
    exact absurd (Or.inl rfl) hnot
  · by_cases hp : lockBeforeBlock lt bh bt
    · have hpb : lock_time_passed lt bh bt = true :=
        (lock_time_passed_iff lt bh bt).mpr hp
      have hval : is_final_tx_komodo hf (some lt) seqs bh bt = Except.ok () := by
        simp only [is_final_tx_komodo]
        rw [if_neg h0, if_pos hpb]
      refine ⟨⟨fun _ => Or.inr (Or.inl hp), fun _ => hval⟩, ?_⟩
      intro hnot
      exact absurd (Or.inr (Or.inl hp)) hnot
    · have hpb : ¬ (lock_time_passed lt bh bt = true) := by
        intro hb
        exact hp ((lock_time_passed_iff lt bh bt).mp hb)
      have hunfold : is_final_tx_komodo hf (some lt) seqs bh bt =
          (if seqs.any (komodo_input_non_final (hf (bh - 1))
              (komodo_f_exception lt bh bt)) then
            spec_locked_error lt
          else Except.ok ()) := by
        simp only [is_final_tx_komodo]
        rw [if_neg h0, if_neg hpb, if_neg hbh0]
        cases lt <;> rfl
      rcases hany : seqs.any (komodo_input_non_final (hf (bh - 1))
          (komodo_f_exception lt bh bt)) with _ | _
      · have hval : is_final_tx_komodo hf (some lt) seqs bh bt = Except.ok () := by
          rw [hunfold, hany]
          rfl
        have hall : ∀ s ∈ seqs, spec_input_final (hf (bh - 1)) lt bh bt s := by
          intro s hs
          have hfalse : komodo_input_non_final (hf (bh - 1))
              (komodo_f_exception lt bh bt) s = false := by
            simpa using List.any_eq_false.mp hany s hs
          exact (komodo_input_non_final_eq_false (hf (bh - 1)) lt bh bt s).mp hfalse
        refine ⟨⟨fun _ => Or.inr (Or.inr hall), fun _ => hval⟩, ?_⟩
        intro hnot
        exact absurd (Or.inr (Or.inr hall)) hnot
      · have hvalerr : is_final_tx_komodo hf (some lt) seqs bh bt =
            spec_locked_error lt := by
          rw [hunfold, hany]
          rfl
        have hspecfalse : ¬ spec_tx_final (hf (bh - 1)) lt seqs bh bt := by
          intro hd
          rcases hd with h1 | h2 | h3
          · exact h0 h1
          · exact hp h2
          · obtain ⟨s, hs, hps⟩ := List.any_eq_true.mp hany
            have hfalse := (komodo_input_non_final_eq_false
              (hf (bh - 1)) lt bh bt s).mpr (h3 s hs)
            rw [hfalse] at hps
            cases hps
        refine ⟨⟨fun hok => ?_, fun hd => absurd hd hspecfalse⟩, fun _ => hvalerr⟩
        rw [hvalerr] at hok
        cases lt <;> simp [spec_locked_error] at hok

/-- Witness for C1: the theorem applied at a concrete non-final transaction. -/
theorem is_final_tx_komodo_spec_witness :
    (is_final_tx_komodo (fun _ => false) (some (LockTime.height 5))
        [seqFinal] 2 0 = Except.ok () ↔
      spec_tx_final ((fun _ : Nat => false) (2 - 1)) (LockTime.height 5)
        [seqFinal] 2 0) ∧
    (¬ spec_tx_final ((fun _ : Nat => false) (2 - 1)) (LockTime.height 5)
        [seqFinal] 2 0 →
      is_final_tx_komodo (fun _ => false) (some (LockTime.height 5))
        [seqFinal] 2 0 = spec_locked_error (LockTime.height 5)) :=
  is_final_tx_komodo_spec (fun _ => false) (LockTime.height 5) [seqFinal] 2 0
    (by decide)

/-- C3: komodo_validate_interest_locktime, whenever the interest-validation
rule is active at txHeight, fails with KomodoTxLockTimeTooEarly exactly when
the transaction carries a time-based raw lock time strictly older than
cmpTime minus the KOMODO_MAXMEMPOOLTIME constant, cmpTime being first
reduced by 16000 seconds when the max-mempool-time adjustment rule is
active at txHeight; transactions with no raw lock time or a height-based
lock time always pass. -/
theorem komodo_validate_interest_locktime_spec
    (va aa : Nat → Bool) (mmt : Int) (rawLockTime : Option LockTime)
    (txHeight : Nat) (cmpTime : Int) (hactive : va txHeight = true) :
    ((∃ e, komodo_validate_interest_locktime va aa mmt rawLockTime txHeight
        cmpTime = Except.error e) ↔
      (∃ l, rawLockTime = some (LockTime.time l) ∧
        l < (if aa txHeight then cmpTime - 16000 else cmpTime) - mmt)) ∧
    (∀ l, rawLockTime = some (LockTime.time l) →
      l < (if aa txHeight then cmpTime - 16000 else cmpTime) - mmt →
      komodo_validate_interest_locktime va aa mmt rawLockTime txHeight cmpTime =
        Except.error (TransactionError.KomodoTxLockTimeTooEarly l txHeight)) ∧
    (∀ h, rawLockTime = some (LockTime.height h) →
      komodo_validate_interest_locktime va aa mmt rawLockTime txHeight cmpTime =
        Except.ok ()) ∧
    (rawLockTime = none →
      komodo_validate_interest_locktime va aa mmt rawLockTime txHeight cmpTime =
        Except.ok ()) := by
  rcases rawLockTime with _ | lt
  · refine ⟨?_, ?_, ?_, ?_⟩ <;> simp [komodo_validate_interest_locktime]
  · cases lt with
    | height h =>
      refine ⟨?_, ?_, ?_, ?_⟩ <;> simp [komodo_validate_interest_locktime]
    | time l =>
      by_cases haa : aa txHeight = true
      · by_cases hlt : l < cmpTime - 16000 - mmt
        · have hres : komodo_validate_interest_locktime va aa mmt
              (some (LockTime.time l)) txHeight cmpTime =
              Except.error
                (TransactionError.KomodoTxLockTimeTooEarly l txHeight) := by
            simp only [komodo_validate_interest_locktime, hactive, haa, if_true]
            rw [if_pos hlt]
          refine ⟨?_, ?_, ?_, ?_⟩
          · rw [hres]
            simp [haa, hlt]
          · intro l' heq hlt'
            cases heq
            exact hres
          · intro h heq
            exact absurd heq (by simp)
          · intro heq
            exact absurd heq (by simp)
        · have hres : komodo_validate_interest_locktime va aa mmt
              (some (LockTime.time l)) txHeight cmpTime = Except.ok () := by
            simp only [komodo_validate_interest_locktime, hactive, haa, if_true]
            rw [if_neg hlt]
          refine ⟨?_, ?_, ?_, ?_⟩
          · rw [hres]
            simp [haa, hlt]
          · intro l' heq hlt'
            cases heq
            simp only [haa, if_true] at hlt'
            exact absurd hlt' hlt
          · intro h heq
            exact absurd heq (by simp)
          · intro heq
            exact absurd heq (by simp)
      · have haa2 : aa txHeight = false := by
          cases hb : aa txHeight
          · rfl
          · exact absurd hb haa
        by_cases hlt : l < cmpTime - mmt
        · have hres : komodo_validate_interest_locktime va aa mmt
              (some (LockTime.time l)) txHeight cmpTime =
              Except.error
                (TransactionError.KomodoTxLockTimeTooEarly l txHeight) := by
            simp only [komodo_validate_interest_locktime, hactive, haa2,
              if_true, Bool.false_eq_true, if_false]
            rw [if_pos hlt]
          refine ⟨?_, ?_, ?_, ?_⟩
          · rw [hres]
            simp [haa2, hlt]
          · intro l' heq hlt'
            cases heq
            exact hres
          · intro h heq
            exact absurd heq (by simp)
          · intro heq
            exact absurd heq (by simp)
        · have hres : komodo_validate_interest_locktime va aa mmt
              (some (LockTime.time l)) txHeight cmpTime = Except.ok () := by
            simp only [komodo_validate_interest_locktime, hactive, haa2,
              if_true, Bool.false_eq_true, if_false]
            rw [if_neg hlt]
          refine ⟨?_, ?_, ?_, ?_⟩
          · rw [hres]
            simp [haa2, hlt]
          · intro l' heq hlt'
            cases heq
            simp only [haa2, Bool.false_eq_true, if_false] at hlt'
            exact absurd hlt' hlt
          · intro h heq
            exact absurd heq (by simp)
          · intro heq
            exact absurd heq (by simp)

/-- Witness for C3: a time lock older than the window is rejected. -/
theorem komodo_validate_interest_locktime_spec_witness :
    komodo_validate_interest_locktime (fun _ => true) (fun _ => false) 3600
      (some (LockTime.time 0)) 10 100000 =
      Except.error (TransactionError.KomodoTxLockTimeTooEarly 0 10) :=
  (komodo_validate_interest_locktime_spec (fun _ => true) (fun _ => false) 3600
      (some (LockTime.time 0)) 10 100000 rfl).2.1 0 rfl (by norm_num)

/-- C6: for a non-coinbase overwintered transaction at height h (heights
are bounded by Height::MAX): an expiry strictly above MAX_EXPIRY_HEIGHT
fails with MaximumExpiryHeight, an expiry equal to it passes, a present
(nonzero) expiry strictly below h fails with ExpiredTransaction, and an
expiry equal to h is accepted. -/
theorem non_coinbase_expiry_height_spec (h : Nat) (hh : h ≤ MAX_EXPIRY_HEIGHT) :
    (∀ e, MAX_EXPIRY_HEIGHT < e →
      non_coinbase_expiry_height h true (some e) =
        Except.error (TransactionError.MaximumExpiryHeight e false)) ∧
    non_coinbase_expiry_height h true (some MAX_EXPIRY_HEIGHT) = Except.ok () ∧
    (∀ e, e < h →
      non_coinbase_expiry_height h true (some e) =
        Except.error (TransactionError.ExpiredTransaction e h)) ∧
    non_coinbase_expiry_height h true (some h) = Except.ok () := by
  refine ⟨?_, ?_, ?_, ?_⟩
  · intro e he
    simp only [non_coinbase_expiry_height, validate_expiry_height_max, he,
      if_true, if_pos]
    rfl
  · have h1 : ¬ (MAX_EXPIRY_HEIGHT > MAX_EXPIRY_HEIGHT) := lt_irrefl _
    have h2 : ¬ (h > MAX_EXPIRY_HEIGHT) := not_lt.mpr hh
    simp only [non_coinbase_expiry_height, validate_expiry_height_max,
      validate_expiry_height_mined, h1, h2, if_true, if_neg, if_false]
    rfl
  · intro e he
    have h1 : ¬ (e > MAX_EXPIRY_HEIGHT) := not_lt.mpr (le_trans (le_of_lt he) hh)
    simp only [non_coinbase_expiry_height, validate_expiry_height_max,
      validate_expiry_height_mined, h1, he, if_true, if_neg, if_pos, if_false]
    rfl
  · have h1 : ¬ (h > MAX_EXPIRY_HEIGHT) := not_lt.mpr hh
    have h2 : ¬ (h > h) := lt_irrefl _
    simp only [non_coinbase_expiry_height, validate_expiry_height_max,
      validate_expiry_height_mined, h1, h2, if_true, if_neg, if_false]
    rfl

/-- Witness for C6: an expiry below the verification height expires. -/
theorem non_coinbase_expiry_height_spec_witness :
    non_coinbase_expiry_height 100 true (some 99) =
      Except.error (TransactionError.ExpiredTransaction 99 100) :=
  (non_coinbase_expiry_height_spec 100 (by norm_num [MAX_EXPIRY_HEIGHT])).2.2.1
    99 (by norm_num)

theorem komodo_fee_floor_nonneg (minRelayFee : Int) (txSize : Nat)
    (hmin : 0 ≤ minRelayFee) : 0 ≤ get_fee minRelayFee txSize :=
  mul_nonneg hmin (Int.natCast_nonneg txSize)

theorem komodo_fee_absurd_iff (rateLimitOk : Bool) (minRelayFee : Int)
    (txSize : Nat) (ovs : Option Int) (txFee : Int) (checkLowFee : Bool)
    (hmin : 0 ≤ minRelayFee) :
    (komodo_miner_fee_valid_for_mempool rateLimitOk minRelayFee txSize ovs
        txFee checkLowFee true =
      Except.error (TransactionError.KomodoAbsurdFee txFee)) ↔
    (get_fee minRelayFee txSize * 10000 < txFee ∧ ovs.getD 0 / 19 < txFee) := by
  have hfloor := komodo_fee_floor_nonneg minRelayFee txSize hmin
  have h10 : get_fee minRelayFee txSize ≤ get_fee minRelayFee txSize * 10000 :=
    le_mul_of_one_le_right hfloor (by norm_num)
  by_cases h1 : checkLowFee && decide (txFee < get_fee minRelayFee txSize) &&
      !rateLimitOk
  · have hlt : txFee < get_fee minRelayFee txSize := by
      simp only [Bool.and_eq_true, decide_eq_true_eq] at h1
      exact h1.1.2
    have hnabs : ¬ (get_fee minRelayFee txSize * 10000 < txFee) := by
      intro hc
      linarith
    simp [komodo_miner_fee_valid_for_mempool, h1, hnabs]
  · unfold komodo_miner_fee_valid_for_mempool
    rw [if_neg (by simpa using h1)]
    by_cases h2 : get_fee minRelayFee txSize * 10000 < txFee <;>
      by_cases h3 : ovs.getD 0 / 19 < txFee <;>
        simp [h2, h3]

theorem komodo_fee_low_fee_denied (minRelayFee : Int) (txSize : Nat)
    (ovs : Option Int) (txFee : Int) (rejectAbsurdFee : Bool)
    (hlt : txFee < get_fee minRelayFee txSize) :
    komodo_miner_fee_valid_for_mempool false minRelayFee txSize ovs txFee
        true rejectAbsurdFee =
      Except.error (TransactionError.KomodoLowFeeLimit "low txfee limit reached") := by
  simp [komodo_miner_fee_valid_for_mempool, hlt]

theorem komodo_fee_equal_floor_skips_low (rateLimitOk : Bool)
    (minRelayFee : Int) (txSize : Nat) (ovs : Option Int)
    (checkLowFee rejectAbsurdFee : Bool) :
    komodo_miner_fee_valid_for_mempool rateLimitOk minRelayFee txSize ovs
        (get_fee minRelayFee txSize) checkLowFee rejectAbsurdFee =
      komodo_miner_fee_valid_for_mempool rateLimitOk minRelayFee txSize ovs
        (get_fee minRelayFee txSize) false rejectAbsurdFee := by
  simp [komodo_miner_fee_valid_for_mempool, lt_irrefl]

/-- C2: the mempool fee check: a fee strictly below the floor with the
low-fee check enabled and the limiter denying yields KomodoLowFeeLimit; a
fee equal to the floor never takes the low-fee path; with reject_absurd_fee
set the check fails with KomodoAbsurdFee exactly when the fee strictly
exceeds both 10000 times the floor and the output value divided by 19. -/
theorem komodo_miner_fee_valid_for_mempool_spec (rateLimitOk : Bool)
    (minRelayFee : Int) (txSize : Nat) (ovs : Option Int) (txFee : Int)
    (checkLowFee rejectAbsurdFee : Bool) (hmin : 0 ≤ minRelayFee) :
    (checkLowFee = true → txFee < get_fee minRelayFee txSize →
      rateLimitOk = false →
      komodo_miner_fee_valid_for_mempool rateLimitOk minRelayFee txSize ovs
          txFee checkLowFee rejectAbsurdFee =
        Except.error
          (TransactionError.KomodoLowFeeLimit "low txfee limit reached")) ∧
    (txFee = get_fee minRelayFee txSize →
      komodo_miner_fee_valid_for_mempool rateLimitOk minRelayFee txSize ovs
          txFee checkLowFee rejectAbsurdFee =
        komodo_miner_fee_valid_for_mempool rateLimitOk minRelayFee txSize ovs
          txFee false rejectAbsurdFee) ∧
    (rejectAbsurdFee = true →
      (komodo_miner_fee_valid_for_mempool rateLimitOk minRelayFee txSize ovs
          txFee checkLowFee rejectAbsurdFee =
        Except.error (TransactionError.KomodoAbsurdFee txFee) ↔
      (get_fee minRelayFee txSize * 10000 < txFee ∧ ovs.getD 0 / 19 < txFee))) := by
  refine ⟨?_, ?_, ?_⟩
  · intro hc hlt hr
    subst hc
    subst hr
    exact komodo_fee_low_fee_denied minRelayFee txSize ovs txFee rejectAbsurdFee hlt
  · intro heq
    subst heq
    exact komodo_fee_equal_floor_skips_low rateLimitOk minRelayFee txSize ovs
      checkLowFee rejectAbsurdFee
  · intro hra
    subst hra
    exact komodo_fee_absurd_iff rateLimitOk minRelayFee txSize ovs txFee
      checkLowFee hmin

/-- Witness for C2: a fee of 50 against a floor of 100 with the limiter
denying is rejected as KomodoLowFeeLimit. -/
theorem komodo_miner_fee_valid_for_mempool_spec_witness :
    komodo_miner_fee_valid_for_mempool false 1 100 (some 1900) 50 true false =
      Except.error
        (TransactionError.KomodoLowFeeLimit "low txfee limit reached") :=
  (komodo_miner_fee_valid_for_mempool_spec false 1 100 (some 1900) 50 true
      false (by norm_num)).1 rfl (by norm_num [get_fee]) rfl

/-- C10: with an overflowed output sum (none) the fee check behaves exactly
as if the output total were zero, so for a positive fee the output arm of
the absurd-fee condition is vacuous and, with reject_absurd_fee set,
rejection with KomodoAbsurdFee depends only on the fee exceeding 10000
times the floor. -/
theorem komodo_overflow_output_sum_spec (rateLimitOk : Bool)
    (minRelayFee : Int) (txSize : Nat) (txFee : Int)
    (checkLowFee rejectAbsurdFee : Bool)
    (hmin : 0 ≤ minRelayFee) (hpos : 0 < txFee) :
    (komodo_miner_fee_valid_for_mempool rateLimitOk minRelayFee txSize none
        txFee checkLowFee rejectAbsurdFee =
      komodo_miner_fee_valid_for_mempool rateLimitOk minRelayFee txSize
        (some 0) txFee checkLowFee rejectAbsurdFee) ∧
    (rejectAbsurdFee = true →
      (komodo_miner_fee_valid_for_mempool rateLimitOk minRelayFee txSize none
          txFee checkLowFee rejectAbsurdFee =
        Except.error (TransactionError.KomodoAbsurdFee txFee) ↔
      get_fee minRelayFee txSize * 10000 < txFee)) := by
  constructor
  · rfl
  · intro hra
    subst hra
    have hiff := komodo_fee_absurd_iff rateLimitOk minRelayFee txSize none
      txFee checkLowFee hmin
    have hzero : (none : Option Int).getD 0 / 19 < txFee := by
      simpa using hpos
    rw [hiff]
    exact ⟨fun ⟨ha, _⟩ => ha, fun ha => ⟨ha, hzero⟩⟩

/-- Witness for C10: with overflow and a fee above 10000 times the floor,
the transaction is rejected as absurd. -/
theorem komodo_overflow_output_sum_spec_witness :
    komodo_miner_fee_valid_for_mempool true 1 10 none 2000000 false true =
      Except.error (TransactionError.KomodoAbsurdFee 2000000) :=
  ((komodo_overflow_output_sum_spec true 1 10 2000000 false true
      (by norm_num) (by norm_num)).2 rfl).mpr (by norm_num [get_fee])

/-- C7: spent_utxos processes the PrevOut inputs in input order, taking
each UTXO from known_utxos when present, otherwise querying
UnspentBestChainUtxo in mempool context (a none answer fails with
TransparentInputNotFound) or AwaitUtxo in block context, and on success
returns the outpoint-to-UTXO map together with the outputs of the PrevOut
inputs in the order those inputs appear in the transaction. -/
theorem spent_utxos_spec (knownUtxos : OutPoint → Option Utxo)
    (isMempool : Bool) (S : StateOracle) (inputs : List Input) :
    spent_utxos knownUtxos isMempool S inputs =
      spec_spent_utxos knownUtxos isMempool S inputs := by
  induction inputs with
  | nil => rfl
  | cons input rest ih =>
    cases input with
    | coinbase s =>
      have hpo : prevOutPoints (Input.coinbase s :: rest) = prevOutPoints rest := by
        simp [prevOutPoints, Input.outPoint]
      rw [show spent_utxos knownUtxos isMempool S (Input.coinbase s :: rest) =
          spent_utxos knownUtxos isMempool S rest from rfl, ih]
      unfold spec_spent_utxos
      rw [hpo]
    | prevOut op s =>
      have hpo : prevOutPoints (Input.prevOut op s :: rest) =
          op :: prevOutPoints rest := by
        simp [prevOutPoints, Input.outPoint]
      have hstep : spent_utxos knownUtxos isMempool S (Input.prevOut op s :: rest) =
          (spec_resolve_utxo knownUtxos isMempool S op).bind fun utxo =>
            (spent_utxos knownUtxos isMempool S rest).bind fun p =>
              Except.ok ((op, utxo) :: p.1, utxo.output :: p.2) := by
        cases hk : knownUtxos op with
        | some u =>
          cases hrest : spent_utxos knownUtxos isMempool S rest <;>
            simp [spent_utxos, spec_resolve_utxo, hk, hrest, Bind.bind, Except.bind]
        | none =>
          cases isMempool with
          | true =>
            cases hs : S.unspentBestChainUtxo op with
            | some u =>
              cases hrest : spent_utxos knownUtxos true S rest <;>
                simp [spent_utxos, spec_resolve_utxo, hk, hs, hrest,
                  Bind.bind, Except.bind]
            | none =>
              simp [spent_utxos, spec_resolve_utxo, hk, hs, Bind.bind, Except.bind]
          | false =>
            cases hrest : spent_utxos knownUtxos false S rest <;>
              simp [spent_utxos, spec_resolve_utxo, hk, hrest,
                Bind.bind, Except.bind]
      rw [hstep, ih]
      simp only [spec_spent_utxos, hpo]
      cases hres : spec_resolve_utxo knownUtxos isMempool S op with
      | error e =>
        simp [spec_resolve_all, hres, Bind.bind, Except.bind]
      | ok u =>
        cases hm : spec_resolve_all knownUtxos isMempool S (prevOutPoints rest) with
        | error e =>
          simp [spec_resolve_all, hres, hm, Bind.bind, Except.bind]
        | ok us =>
          simp [spec_resolve_all, hres, hm, Bind.bind, Except.bind]

/-- C4 (amended): a V1, V2 or V3 transaction never verifies: the request
operation always fails, and whenever all checks preceding the per-version
dispatch pass, the failure is WrongVersion. -/
theorem verifier_call_wrong_version (P : NetParams) (S : StateOracle)
    (banned : Transaction → Except TransactionError Unit)
    (depositOpret : Transaction → List (OutPoint × Utxo) →
      Except TransactionError Unit)
    (postDispatch : Except TransactionError Unit) (tx : Transaction)
    (req : VRequest)
    (hv : tx.version = 1 ∨ tx.version = 2 ∨ tx.version = 3) :
    (∀ u, verifier_call P S banned depositOpret postDispatch tx req ≠
      Except.ok u) ∧
    (verifier_pre_checks P S banned depositOpret tx req = Except.ok () →
      verifier_call P S banned depositOpret postDispatch tx req =
        Except.error TransactionError.WrongVersion) := by
  constructor
  · intro u hok
    unfold verifier_call at hok
    cases hpre : verifier_pre_checks P S banned depositOpret tx req with
    | error e =>
      rw [hpre] at hok
      simp [Bind.bind, Except.bind] at hok
    | ok u2 =>
      cases u2
      rw [hpre] at hok
      rcases hv with h | h | h <;> rw [h] at hok <;>
        simp [Bind.bind, Except.bind, throw, throwThe, MonadExceptOf.throw] at hok
  · intro hpre
    unfold verifier_call
    rw [hpre]
    rcases hv with h | h | h <;> rw [h] <;> rfl

/-- Witness for C4: the theorem applied to a concrete V2 transaction. -/
theorem verifier_call_wrong_version_witness :
    verifier_call
      ⟨fun _ => false, fun _ => false, fun _ => false, fun _ => false, 0, none, 0⟩
      ⟨fun _ => some 0, fun _ => some 0, fun _ => some 0, fun _ => none,
        fun _ => ⟨⟨0⟩, 0, false⟩⟩
      (fun _ => Except.ok ()) (fun _ _ => Except.ok ()) (Except.ok ())
      ⟨2, [], [], none, 0, [], [], 0, 0, [], none⟩
      (VRequest.mempool 100 false false) ≠ Except.ok () :=
  (verifier_call_wrong_version _ _ _ _ _ _ _ (Or.inr (Or.inl rfl))).1 ()

/-- C4 counterexample: a V1 transaction with no inputs fails with NoInputs,
not WrongVersion, so the request operation does not fail with WrongVersion
regardless of the request's other contents. -/
theorem verifier_call_v1_not_always_wrong_version :
    verifier_call
      ⟨fun _ => false, fun _ => false, fun _ => false, fun _ => false, 0, none, 0⟩
      ⟨fun _ => some 0, fun _ => some 0, fun _ => some 0, fun _ => none,
        fun _ => ⟨⟨0⟩, 0, false⟩⟩
      (fun _ => Except.ok ()) (fun _ _ => Except.ok ()) (Except.ok ())
      ⟨1, [], [], none, 0, [], [], 0, 0, [], none⟩
      (VRequest.mempool 100 false false) =
      Except.error TransactionError.NoInputs ∧
    TransactionError.NoInputs ≠ TransactionError.WrongVersion := by
  constructor
  · rfl
  · decide

/-- C5 counterexample: Overwinter and Sapling are distinct upgrades with
the same finite activation height, so the mapping is not injective on
upgrades with finite activation heights. -/
theorem activation_height_overwinter_sapling_collision :
    NetworkUpgrade.Overwinter ≠ NetworkUpgrade.Sapling ∧
    activation_height 1140409 Network.Mainnet NetworkUpgrade.Overwinter =
      some 1140409 ∧
    activation_height 1140409 Network.Mainnet NetworkUpgrade.Sapling =
      some 1140409 ∧
    (1140409 : Nat) ≠ HEIGHT_MAX := by
  refine ⟨by decide, rfl, rfl, by decide⟩

/-- C5 (amended): for every network, activation_height is injective on
upgrades with finite activation heights except for the deliberate
Overwinter-Sapling collision: two distinct upgrades with equal finite
activation heights can only be Overwinter and Sapling. -/
theorem activation_height_injective_except_overwinter_sapling
    (s : Nat) (hs1 : 1 < s) (hs2 : s ≠ HEIGHT_MAX) (n : Network)
    (u v : NetworkUpgrade) (hu hv : Nat)
    (h1 : activation_height s n u = some hu)
    (h2 : activation_height s n v = some hv)
    (hfin1 : hu ≠ HEIGHT_MAX) (hfin2 : hv ≠ HEIGHT_MAX) (heq : hu = hv) :
    u = v ∨ (u = NetworkUpgrade.Overwinter ∧ v = NetworkUpgrade.Sapling) ∨
      (u = NetworkUpgrade.Sapling ∧ v = NetworkUpgrade.Overwinter) := by
  cases u <;> cases v <;>
    simp_all [activation_height, HEIGHT_MAX] <;> omega

/-- Witness for C5: the amended statement applied at the Overwinter-Sapling
pair with a concrete shared height. -/
theorem activation_height_injective_except_witness :
    NetworkUpgrade.Overwinter = NetworkUpgrade.Sapling ∨
    (NetworkUpgrade.Overwinter = NetworkUpgrade.Overwinter ∧
      NetworkUpgrade.Sapling = NetworkUpgrade.Sapling) ∨
    (NetworkUpgrade.Overwinter = NetworkUpgrade.Sapling ∧
      NetworkUpgrade.Sapling = NetworkUpgrade.Overwinter) :=
  activation_height_injective_except_overwinter_sapling 1140409 (by decide)
    (by decide) Network.Mainnet NetworkUpgrade.Overwinter
    NetworkUpgrade.Sapling 1140409 1140409 rfl rfl (by decide) (by decide) rfl

/-- C8: after the peer's Version is received, the handshake fails with
NonceReuse exactly when the peer's nonce is in the nonce set at the moment
of the check; the critical section removes exactly the local nonce from the
set; a handshake never yields a Client when the peer echoed an in-flight
nonce, while a same-valued peer nonce with no matching entry in the set
never fails NonceReuse. -/
theorem negotiate_version_nonce_reuse_spec (nonces0 : Finset Nat)
    (localNonce ourVersion remoteVersion remoteNonce minVersion : Nat)
    (verackArrives : Bool) :
    ((negotiate_version nonces0 localNonce ourVersion remoteVersion
        remoteNonce minVersion verackArrives).outcome =
          Except.error HandshakeError.NonceReuse ↔
      remoteNonce ∈ insert localNonce nonces0) ∧
    ((negotiate_version nonces0 localNonce ourVersion remoteVersion
        remoteNonce minVersion verackArrives).noncesAfter =
      (insert localNonce nonces0).erase localNonce) ∧
    (remoteNonce ∈ insert localNonce nonces0 →
      ∀ v, (negotiate_version nonces0 localNonce ourVersion remoteVersion
        remoteNonce minVersion verackArrives).outcome ≠ Except.ok v) ∧
    (remoteNonce ∉ insert localNonce nonces0 →
      (negotiate_version nonces0 localNonce ourVersion remoteVersion
        remoteNonce minVersion verackArrives).outcome ≠
          Except.error HandshakeError.NonceReuse) := by
  unfold negotiate_version nonce_check
  by_cases hmem : remoteNonce ∈ insert localNonce nonces0
  · simp [hmem]
  · by_cases hv : remoteVersion < minVersion
    · simp [hmem, hv]
    · cases verackArrives <;> simp [hmem, hv]

/-- C9 (amended): in every execution in which the remote version is
strictly below the sampled minimum, the handshake never succeeds and our
side never sends a Verack; the failure is ObsoleteVersion whenever the
peer's nonce is not in the nonce set at the check (otherwise the earlier
nonce-reuse check fails first with NonceReuse). -/
theorem negotiate_version_obsolete_spec (nonces0 : Finset Nat)
    (localNonce ourVersion remoteVersion remoteNonce minVersion : Nat)
    (verackArrives : Bool) (hver : remoteVersion < minVersion) :
    HMessage.verack ∉ (negotiate_version nonces0 localNonce ourVersion
      remoteVersion remoteNonce minVersion verackArrives).sent ∧
    (∀ v, (negotiate_version nonces0 localNonce ourVersion remoteVersion
      remoteNonce minVersion verackArrives).outcome ≠ Except.ok v) ∧
    (remoteNonce ∉ insert localNonce nonces0 →
      (negotiate_version nonces0 localNonce ourVersion remoteVersion
        remoteNonce minVersion verackArrives).outcome =
          Except.error (HandshakeError.ObsoleteVersion remoteVersion)) := by
  unfold negotiate_version nonce_check
  by_cases hmem : remoteNonce ∈ insert localNonce nonces0 <;>
    simp [hmem, hver]

/-- Witness for C9: a peer with version 1 against minimum 2 and a fresh
nonce is rejected as obsolete. -/
theorem negotiate_version_obsolete_spec_witness :
    (negotiate_version ∅ 5 170100 1 9 2 true).outcome =
      Except.error (HandshakeError.ObsoleteVersion 1) :=
  (negotiate_version_obsolete_spec ∅ 5 170100 1 9 2 true (by decide)).2.2
    (by decide)

/-- C9 counterexample: a handshake from a peer that both echoes an
in-flight nonce and advertises an obsolete version fails with NonceReuse,
not ObsoleteVersion. -/
theorem negotiate_version_obsolete_counterexample :
    (1 : Nat) < 2 ∧
    (negotiate_version {7} 5 170100 1 7 2 true).outcome =
      Except.error HandshakeError.NonceReuse ∧
    (negotiate_version {7} 5 170100 1 7 2 true).outcome ≠
      Except.error (HandshakeError.ObsoleteVersion 1) := by
  have hmem : (7 : Nat) ∈ insert 5 ({7} : Finset Nat) := by decide
  refine ⟨by decide, ?_, ?_⟩ <;>
    simp [negotiate_version, nonce_check, hmem]

end Zebra
